import Mathlib

/-!
Shallow embedding of the USB CDC device core in
`src/lib/include/usb/device/cdc/CdcDevice.h` (stm32plus).

The driver state (`CdcState`) carries the fields of `CdcDevice`:
`_opCode`, `_commandSize`, `_commandBuffer[16]` and the command-endpoint
part of `_configurationDescriptor`.  The two event handlers `onEvent` and
`onCdcSetup`, and `initialise`, are embedded as pure functions returning
the updated state together with the ordered list of calls they make to the
platform primitives (event emission, endpoint open/close, control send,
control arm-receive).  Machine integers are modelled as `Nat` with `% 256`
where the C++ performs a narrowing `uint16_t` to `uint8_t` store.
-/

namespace Stm32plusCdc

/-- Modelled from the spec: the request-type mask of the external ST USB SDK
header (`USB_REQ_TYPE_MASK`, not part of this repository).  The spec only
needs "request-type bits equal to class" (glossary: class request); the ST
SDK value is 0x60. -/
def USB_REQ_TYPE_MASK : Nat := 0x60

/-- Modelled from the spec: the class request-type value of the external ST
USB SDK header (`USB_REQ_TYPE_CLASS`, not part of this repository); the ST
SDK value is 0x20. -/
def USB_REQ_TYPE_CLASS : Nat := 0x20

namespace EndpointDescriptor

/-- Modelled from the spec: the IN direction bit of the external
`EndpointDescriptor` class (the spec describes the command endpoint as the
interrupt-IN endpoint at address 1); the USB direction bit is 0x80. -/
def IN : Nat := 0x80

/-- Modelled from the spec: the interrupt transfer-type attribute of the
external `EndpointDescriptor` class; the USB interrupt attribute is 3. -/
def INTERRUPT : Nat := 3

end EndpointDescriptor

/-- `COMMAND_EP_ADDRESS = EndpointDescriptor::IN | 1` (CdcDevice.h line 53). -/
def COMMAND_EP_ADDRESS : Nat := EndpointDescriptor.IN ||| 1

/-- `MAX_COMMAND_EP_PACKET_SIZE = 16` (CdcDevice.h line 57): the capacity of
`_commandBuffer`. -/
def MAX_COMMAND_EP_PACKET_SIZE : Nat := 16

/-- The setup header carried by a `DeviceClassSdkSetupEvent`
(`event.request`): `bmRequest` and `bRequest` are `uint8_t` values,
`wLength` a `uint16_t` value. -/
structure SetupRequest where
  bmRequest : Nat
  bRequest : Nat
  wLength : Nat
deriving DecidableEq, Repr

/-- The command-endpoint fields of the configuration descriptor written by
`initialise` (CdcDevice.h lines 132-135). -/
structure CommandEndpointDescriptor where
  bEndpointAddress : Nat
  bmAttributes : Nat
  wMaxPacketSize : Nat
  bInterval : Nat
deriving DecidableEq, Repr

/-- The part of `TConfigurationDescriptor` this core touches: its
`commandEndpoint` member. -/
structure ConfigurationDescriptor where
  commandEndpoint : CommandEndpointDescriptor
deriving DecidableEq, Repr

/-- The fields of `CdcDevice` mutated by the embedded member functions:
`_opCode`, `_commandSize`, `_commandBuffer` (a 16-byte array) and
`_configurationDescriptor`. -/
structure CdcState where
  opCode : Nat
  commandSize : Nat
  commandBuffer : List Nat
  configurationDescriptor : ConfigurationDescriptor
deriving DecidableEq, Repr

/-- Which buffer a platform call or event refers to: the member array
`_commandBuffer`, or the C++ `nullptr`. -/
inductive BufferRef where
  | commandBuffer
  | null
deriving DecidableEq, Repr

/-- The declared byte capacity of a buffer reference: `_commandBuffer` is
declared `uint8_t _commandBuffer[MAX_COMMAND_EP_PACKET_SIZE]`
(CdcDevice.h line 63). -/
def BufferRef.capacity : BufferRef → Nat
  | .commandBuffer => MAX_COMMAND_EP_PACKET_SIZE
  | .null => 0

/-- One call made by the driver to a platform primitive, in invocation
order: `UsbEventSender.raiseEvent(CdcControlEvent(...))`,
`USBD_CtlSendData`, `USBD_CtlPrepareRx`, `USBD_LL_OpenEP`,
`USBD_LL_CloseEP`. -/
inductive Action where
  | raiseControlEvent (bRequest : Nat) (payload : BufferRef) (length : Nat)
  | ctlSendData (buffer : BufferRef) (length : Nat)
  | ctlPrepareRx (buffer : BufferRef) (length : Nat)
  | openEP (address : Nat) (epType : Nat) (maxPacketSize : Nat)
  | closeEP (address : Nat)
deriving DecidableEq, Repr

/-- An action is a notification-event emission. -/
def Action.isEvent : Action → Bool
  | .raiseControlEvent _ _ _ => true
  | _ => false

/-- An action is an endpoint I/O primitive (send, arm-receive, open or
close). -/
def Action.isEndpointIO : Action → Bool
  | .raiseControlEvent _ _ _ => false
  | _ => true

/-- `CdcDevice::onCdcSetup` (CdcDevice.h lines 179-215), embedded as a pure
function from the driver state and the setup header to the new state and
the ordered list of platform calls.  The `% 256` on the `_commandSize`
store reflects the narrowing assignment of the `uint16_t` field
`event.request.wLength` to the `uint8_t` member `_commandSize`. -/
def onCdcSetup (s : CdcState) (req : SetupRequest) : CdcState × List Action :=
  if (req.bmRequest &&& USB_REQ_TYPE_MASK) ≠ USB_REQ_TYPE_CLASS then
    (s, [])
  else if req.wLength ≠ 0 then
    if (req.bmRequest &&& 0x80) ≠ 0 then
      (s, [.raiseControlEvent req.bRequest .commandBuffer req.wLength,
           .ctlSendData .commandBuffer req.wLength])
    else
      ({ s with opCode := req.bRequest, commandSize := req.wLength % 256 },
       [.ctlPrepareRx .commandBuffer req.wLength])
  else
    (s, [.raiseControlEvent req.bRequest .null 0])

/-- The events delivered to `CdcDevice::onEvent`: the three handled
`UsbEventDescriptor::EventType` values, and `other t` for every remaining
event type `t`. -/
inductive UsbEvent where
  | classInit
  | classDeinit
  | classSetup (req : SetupRequest)
  | other (eventType : Nat)
deriving DecidableEq, Repr

/-- `CdcDevice::onEvent` (CdcDevice.h lines 149-171): dispatch on the event
type; `CLASS_INIT` opens the command endpoint, `CLASS_DEINIT` closes it,
`CLASS_SETUP` runs `onCdcSetup`, the `default` branch does nothing. -/
def onEvent (s : CdcState) (e : UsbEvent) : CdcState × List Action :=
  match e with
  | .classInit =>
      (s, [.openEP COMMAND_EP_ADDRESS EndpointDescriptor.INTERRUPT
             MAX_COMMAND_EP_PACKET_SIZE])
  | .classDeinit =>
      (s, [.closeEP COMMAND_EP_ADDRESS])
  | .classSetup req => onCdcSetup s req
  | .other _ => (s, [])

/-- `CdcDevice::Parameters` (CdcDevice.h lines 38-48): the field this core
reads is `cdc_cmd_poll_interval`. -/
structure Parameters where
  cdc_cmd_poll_interval : Nat
deriving DecidableEq, Repr

/-- The `Parameters` default constructor sets `cdc_cmd_poll_interval=16`
(CdcDevice.h line 46). -/
def Parameters.default : Parameters :=
  { cdc_cmd_poll_interval := 16 }

/-- The initialization steps `initialise` may invoke, in source order:
`Device<TPhy>::initialise`, `ControlEndpointFeature::initialise`, the
recursive feature initialisers, and `USBD_RegisterClass`. -/
inductive InitStep where
  | device
  | controlEndpoint
  | features
  | registerClass
deriving DecidableEq, Repr

/-- `CdcDevice::initialise` (CdcDevice.h lines 120-141).  The outcomes of
the three upstream initialisers (base device, control endpoint feature,
recursive feature init) are inputs `deviceOk`, `ctlOk`, `featuresOk`; the
result is the new state, the returned boolean, and the list of steps that
were actually invoked — the C++ `||` chain short-circuits, so a failing
step stops the chain.  On success the command-endpoint descriptor fields
are rewritten from the constants and `params`. -/
def initialise (s : CdcState) (params : Parameters)
    (deviceOk ctlOk featuresOk : Bool) : CdcState × Bool × List InitStep :=
  if !deviceOk then
    (s, false, [.device])
  else if !ctlOk then
    (s, false, [.device, .controlEndpoint])
  else if !featuresOk then
    (s, false, [.device, .controlEndpoint, .features])
  else
    ({ s with configurationDescriptor :=
        { commandEndpoint :=
            { bEndpointAddress := COMMAND_EP_ADDRESS,
              bmAttributes := EndpointDescriptor.INTERRUPT,
              wMaxPacketSize := MAX_COMMAND_EP_PACKET_SIZE,
              bInterval := params.cdc_cmd_poll_interval } } },
     true, [.device, .controlEndpoint, .features, .registerClass])

/-- A concrete driver state used for concrete evaluations (the constructor
only initialises `_opCode`; the remaining member values are arbitrary, and
any concrete choice serves for evaluation). -/
def state0 : CdcState :=
  { opCode := 0,
    commandSize := 0,
    commandBuffer := List.replicate MAX_COMMAND_EP_PACKET_SIZE 0,
    configurationDescriptor :=
      { commandEndpoint :=
          { bEndpointAddress := 0, bmAttributes := 0,
            wMaxPacketSize := 0, bInterval := 0 } } }

/-- C1: the source performs no bounds check of `wLength` against the
16-byte command buffer.  Evaluating `onCdcSetup` at the failing input —
the class host-to-device request `{bmRequest=0x21, bRequest=0x20,
wLength=17}` — shows the driver records a pending length of 17 and arms a
receive of 17 bytes into the command buffer, whose capacity 16 is
exceeded, instead of rejecting or truncating the request. -/
theorem c1_oversized_wLength_not_rejected :
    (onCdcSetup state0 { bmRequest := 0x21, bRequest := 0x20, wLength := 17 }).2 =
      [Action.ctlPrepareRx BufferRef.commandBuffer 17] ∧
    (onCdcSetup state0 { bmRequest := 0x21, bRequest := 0x20, wLength := 17 }).1.commandSize = 17 ∧
    MAX_COMMAND_EP_PACKET_SIZE < 17 ∧
    BufferRef.capacity BufferRef.commandBuffer < 17 := by
  refine ⟨?_, ?_, ?_, ?_⟩ <;> decide

/-- C2 counterexample: for the class device-to-host request
`{bmRequest=0xA1, bRequest=0x21, wLength=17}` the driver emits exactly one
event referencing the command buffer with length 17, but that buffer holds
only 16 bytes — the claim that the event carries a reference to a buffer
of at least `wLength` bytes is false at this input. -/
theorem c2_counterexample :
    (onCdcSetup state0 { bmRequest := 0xA1, bRequest := 0x21, wLength := 17 }).2 =
      [Action.raiseControlEvent 0x21 BufferRef.commandBuffer 17,
       Action.ctlSendData BufferRef.commandBuffer 17] ∧
    BufferRef.capacity BufferRef.commandBuffer < 17 := by
  refine ⟨?_, ?_⟩ <;> decide

/-- C2 (amended): for every class setup request with `wLength > 0` and
device-to-host direction, the platform-call trace is exactly one
notification event carrying the request code, a reference to the fixed
16-byte command buffer, and length `wLength`, followed by — hence
dispatched strictly before — the control-endpoint send with that same
buffer and the same length `wLength`; the referenced buffer has at least
`wLength` bytes whenever `wLength ≤ 16`. -/
theorem c2_in_request_event_then_send (s : CdcState) (req : SetupRequest)
    (hclass : req.bmRequest &&& USB_REQ_TYPE_MASK = USB_REQ_TYPE_CLASS)
    (hlen : req.wLength ≠ 0)
    (hdir : req.bmRequest &&& 0x80 ≠ 0) :
    (onCdcSetup s req).2 =
      [Action.raiseControlEvent req.bRequest BufferRef.commandBuffer req.wLength,
       Action.ctlSendData BufferRef.commandBuffer req.wLength] ∧
    (req.wLength ≤ 16 → req.wLength ≤ BufferRef.capacity BufferRef.commandBuffer) := by
  constructor
  · simp [onCdcSetup, hclass, hlen, hdir]
  · intro h
    simpa [BufferRef.capacity, MAX_COMMAND_EP_PACKET_SIZE] using h

/-- C2 witness: the spec's GET_LINE_CODING scenario
`{bmRequest=0xA1, bRequest=0x21, wLength=7}`. -/
theorem c2_witness :
    (onCdcSetup state0 { bmRequest := 0xA1, bRequest := 0x21, wLength := 7 }).2 =
      [Action.raiseControlEvent 0x21 BufferRef.commandBuffer 7,
       Action.ctlSendData BufferRef.commandBuffer 7] ∧
    ((7 : Nat) ≤ 16 → (7 : Nat) ≤ BufferRef.capacity BufferRef.commandBuffer) :=
  c2_in_request_event_then_send state0
    { bmRequest := 0xA1, bRequest := 0x21, wLength := 7 }
    (by decide) (by decide) (by decide)

/-- C3 counterexample: for the class host-to-device request
`{bmRequest=0x21, bRequest=0x20, wLength=256}` the recorded pending length
is 0, not 256 — `_commandSize` is a `uint8_t`, so the claim that the
pending length is set to `wLength` exactly as given is false at this
input. -/
theorem c3_counterexample :
    (onCdcSetup state0 { bmRequest := 0x21, bRequest := 0x20, wLength := 256 }).1.commandSize = 0 ∧
    (0 : Nat) ≠ 256 := by
  refine ⟨?_, ?_⟩ <;> decide

/-- C3 (amended): for every class setup request with `wLength > 0` and
host-to-device direction, no notification event is emitted during the
setup phase, the pending op code is set to the request's `bRequest`, the
pending length is set to `wLength mod 256` (the low 8 bits — the pending
length field is an 8-bit integer; equal to `wLength` whenever
`wLength < 256`), and the only platform call is arming a receive into the
command buffer for exactly `wLength` bytes. -/
theorem c3_out_request_records_and_arms (s : CdcState) (req : SetupRequest)
    (hclass : req.bmRequest &&& USB_REQ_TYPE_MASK = USB_REQ_TYPE_CLASS)
    (hlen : req.wLength ≠ 0)
    (hdir : req.bmRequest &&& 0x80 = 0) :
    (onCdcSetup s req).1.opCode = req.bRequest ∧
    (onCdcSetup s req).1.commandSize = req.wLength % 256 ∧
    (onCdcSetup s req).2 = [Action.ctlPrepareRx BufferRef.commandBuffer req.wLength] := by
  refine ⟨?_, ?_, ?_⟩ <;> simp [onCdcSetup, hclass, hlen, hdir]

/-- C3 witness: the spec's SET_LINE_CODING scenario
`{bmRequest=0x21, bRequest=0x20, wLength=7}`: op code 0x20 and length 7
are recorded and a 7-byte receive is armed. -/
theorem c3_witness :
    (onCdcSetup state0 { bmRequest := 0x21, bRequest := 0x20, wLength := 7 }).1.opCode = 0x20 ∧
    (onCdcSetup state0 { bmRequest := 0x21, bRequest := 0x20, wLength := 7 }).1.commandSize = 7 % 256 ∧
    (onCdcSetup state0 { bmRequest := 0x21, bRequest := 0x20, wLength := 7 }).2 =
      [Action.ctlPrepareRx BufferRef.commandBuffer 7] :=
  c3_out_request_records_and_arms state0
    { bmRequest := 0x21, bRequest := 0x20, wLength := 7 }
    (by decide) (by decide) (by decide)

/-- C4: for every class setup request with `wLength = 0`, the platform-call
trace is exactly one notification event carrying the request code, a null
payload reference, and length 0; in particular exactly one event is
emitted and no endpoint I/O primitive (send, arm-receive, open or close)
is invoked. -/
theorem c4_zero_length_event_no_io (s : CdcState) (req : SetupRequest)
    (hclass : req.bmRequest &&& USB_REQ_TYPE_MASK = USB_REQ_TYPE_CLASS)
    (hlen : req.wLength = 0) :
    (onCdcSetup s req).2 = [Action.raiseControlEvent req.bRequest BufferRef.null 0] ∧
    ((onCdcSetup s req).2.countP (fun a => a.isEvent)) = 1 ∧
    ((onCdcSetup s req).2.filter (fun a => a.isEndpointIO)) = [] := by
  refine ⟨?_, ?_, ?_⟩ <;>
    simp [onCdcSetup, hclass, hlen, Action.isEvent, Action.isEndpointIO,
      List.countP, List.countP.go]

/-- C4 witness: the spec's SEND_BREAK scenario
`{bmRequest=0x21, bRequest=0x23, wLength=0}`. -/
theorem c4_witness :
    (onCdcSetup state0 { bmRequest := 0x21, bRequest := 0x23, wLength := 0 }).2 =
      [Action.raiseControlEvent 0x23 BufferRef.null 0] ∧
    ((onCdcSetup state0 { bmRequest := 0x21, bRequest := 0x23, wLength := 0 }).2.countP
      (fun a => a.isEvent)) = 1 ∧
    ((onCdcSetup state0 { bmRequest := 0x21, bRequest := 0x23, wLength := 0 }).2.filter
      (fun a => a.isEndpointIO)) = [] :=
  c4_zero_length_event_no_io state0
    { bmRequest := 0x21, bRequest := 0x23, wLength := 0 }
    (by decide) (by decide)

/-- C5: for every setup request whose request-type bits differ from the
class type, the setup handler returns the state unchanged (op code,
pending length, command buffer and configuration descriptor all equal to
their previous values) and makes no platform call at all — no event, no
endpoint primitive. -/
theorem c5_nonclass_noop (s : CdcState) (req : SetupRequest)
    (hclass : req.bmRequest &&& USB_REQ_TYPE_MASK ≠ USB_REQ_TYPE_CLASS) :
    onCdcSetup s req = (s, []) := by
  simp [onCdcSetup, hclass]

/-- C5 witness: the standard (non-class) request `{bmRequest=0x80,
bRequest=0x06, wLength=18}` (a GET_DESCRIPTOR) is a no-op. -/
theorem c5_witness :
    onCdcSetup state0 { bmRequest := 0x80, bRequest := 0x06, wLength := 18 } =
      (state0, []) :=
  c5_nonclass_noop state0 { bmRequest := 0x80, bRequest := 0x06, wLength := 18 }
    (by decide)

/-- C6: a `CLASS_INIT` event produces exactly one endpoint-open call with
the configured command endpoint address, the interrupt transfer type and
the configured max packet size, and no state change; a `CLASS_DEINIT`
event produces exactly one endpoint-close call with that same address and
no state change; and every lifecycle event other than `CLASS_INIT`,
`CLASS_DEINIT` and `CLASS_SETUP` produces no platform call and no state
change. -/
theorem c6_lifecycle_dispatch (s : CdcState) (t : Nat) :
    onEvent s UsbEvent.classInit =
      (s, [Action.openEP COMMAND_EP_ADDRESS EndpointDescriptor.INTERRUPT
             MAX_COMMAND_EP_PACKET_SIZE]) ∧
    onEvent s UsbEvent.classDeinit = (s, [Action.closeEP COMMAND_EP_ADDRESS]) ∧
    onEvent s (UsbEvent.other t) = (s, []) := by
  refine ⟨?_, ?_, ?_⟩ <;> rfl

/-- C7: `initialise` returns `true` exactly when the base device, the
control endpoint feature and the composed features all succeed; on any
failure it returns immediately with `false`, the state (including the
configuration descriptor) unchanged, and the `||` chain short-circuits:
the control-endpoint step runs only if the device step succeeded, the
features step only if both earlier steps succeeded, and registration only
if all three succeeded. -/
theorem c7_initialise_short_circuit (s : CdcState) (p : Parameters)
    (d c f : Bool) :
    ((initialise s p d c f).2.1 = true ↔ (d = true ∧ c = true ∧ f = true)) ∧
    ((initialise s p d c f).2.1 = false → (initialise s p d c f).1 = s) ∧
    (InitStep.controlEndpoint ∈ (initialise s p d c f).2.2 → d = true) ∧
    (InitStep.features ∈ (initialise s p d c f).2.2 → d = true ∧ c = true) ∧
    (InitStep.registerClass ∈ (initialise s p d c f).2.2 →
      d = true ∧ c = true ∧ f = true) := by
  cases d <;> cases c <;> cases f <;>
    simp [initialise]

/-- C7 witness: with a failing base-device step the result is `false`, the
state is untouched, and neither the control-endpoint step nor the features
step nor registration appears among the invoked steps; with all steps
succeeding the result is `true`. -/
theorem c7_witness :
    (initialise state0 Parameters.default false true true).1 = state0 ∧
    InitStep.controlEndpoint ∉ (initialise state0 Parameters.default false true true).2.2 ∧
    (initialise state0 Parameters.default true true true).2.1 = true := by
  refine ⟨?_, ?_, ?_⟩
  · exact (c7_initialise_short_circuit state0 Parameters.default false true true).2.1 rfl
  · intro hmem
    exact Bool.false_ne_true
      ((c7_initialise_short_circuit state0 Parameters.default false true true).2.2.1 hmem)
  · exact (c7_initialise_short_circuit state0 Parameters.default true true true).1.mpr
      ⟨rfl, rfl, rfl⟩

/-- C8: on every successful call the command-endpoint descriptor fields are
fully rewritten from the constants and the supplied parameters, so calling
`initialise` twice with the same parameters, without a deinitialization in
between, leaves the configuration descriptor exactly as a single
successful call does. -/
theorem c8_initialise_idempotent (s : CdcState) (p : Parameters)
    (d c f : Bool) (hok : (initialise s p d c f).2.1 = true) :
    (initialise s p d c f).1.configurationDescriptor.commandEndpoint =
      { bEndpointAddress := COMMAND_EP_ADDRESS,
        bmAttributes := EndpointDescriptor.INTERRUPT,
        wMaxPacketSize := MAX_COMMAND_EP_PACKET_SIZE,
        bInterval := p.cdc_cmd_poll_interval } ∧
    (initialise (initialise s p d c f).1 p d c f).1.configurationDescriptor =
      (initialise s p d c f).1.configurationDescriptor := by
  cases d <;> cases c <;> cases f <;>
    simp_all [initialise]

/-- C8 witness: a concrete successful double initialization rewrites the
descriptor to the same fully populated value both times. -/
theorem c8_witness :
    (initialise state0 Parameters.default true true true).1.configurationDescriptor.commandEndpoint =
      { bEndpointAddress := COMMAND_EP_ADDRESS,
        bmAttributes := EndpointDescriptor.INTERRUPT,
        wMaxPacketSize := MAX_COMMAND_EP_PACKET_SIZE,
        bInterval := Parameters.default.cdc_cmd_poll_interval } ∧
    (initialise (initialise state0 Parameters.default true true true).1
        Parameters.default true true true).1.configurationDescriptor =
      (initialise state0 Parameters.default true true true).1.configurationDescriptor :=
  c8_initialise_idempotent state0 Parameters.default true true true rfl

/-- C9: whenever `initialise` returns `true` the notification (command)
endpoint descriptor is fully populated — address, interrupt transfer type,
max packet size, and polling interval taken from the caller's parameters,
whose default constructor sets the interval to 16 — and every subsequently
handled event (lifecycle or setup) leaves the configuration descriptor
unchanged. -/
theorem c9_descriptor_populated_then_immutable :
    Parameters.default.cdc_cmd_poll_interval = 16 ∧
    (∀ (s : CdcState) (p : Parameters) (d c f : Bool),
      (initialise s p d c f).2.1 = true →
      (initialise s p d c f).1.configurationDescriptor.commandEndpoint =
        { bEndpointAddress := COMMAND_EP_ADDRESS,
          bmAttributes := EndpointDescriptor.INTERRUPT,
          wMaxPacketSize := MAX_COMMAND_EP_PACKET_SIZE,
          bInterval := p.cdc_cmd_poll_interval }) ∧
    (∀ (s : CdcState) (e : UsbEvent),
      (onEvent s e).1.configurationDescriptor = s.configurationDescriptor) := by
  refine ⟨rfl, ?_, ?_⟩
  · intro s p d c f hok
    cases d <;> cases c <;> cases f <;> simp_all [initialise]
  · intro s e
    cases e with
    | classInit => rfl
    | classDeinit => rfl
    | other t => rfl
    | classSetup req =>
        by_cases hclass : (req.bmRequest &&& USB_REQ_TYPE_MASK) ≠ USB_REQ_TYPE_CLASS
        · simp [onEvent, onCdcSetup, hclass]
        · by_cases hlen : req.wLength ≠ 0
          · by_cases hdir : (req.bmRequest &&& 0x80) ≠ 0
            · simp [onEvent, onCdcSetup, hclass, hlen, hdir]
            · simp [onEvent, onCdcSetup, hclass, hlen, hdir]
          · simp [onEvent, onCdcSetup, hclass, hlen]

/-- C9 witness: a concrete successful initialization populates the
descriptor with the default interval 16, and a concrete subsequent setup
event leaves the descriptor unchanged. -/
theorem c9_witness :
    (initialise state0 Parameters.default true true true).1.configurationDescriptor.commandEndpoint =
      { bEndpointAddress := COMMAND_EP_ADDRESS,
        bmAttributes := EndpointDescriptor.INTERRUPT,
        wMaxPacketSize := MAX_COMMAND_EP_PACKET_SIZE,
        bInterval := Parameters.default.cdc_cmd_poll_interval } ∧
    (onEvent state0 (UsbEvent.classSetup
        { bmRequest := 0x21, bRequest := 0x20, wLength := 7 })).1.configurationDescriptor =
      state0.configurationDescriptor :=
  ⟨c9_descriptor_populated_then_immutable.2.1 state0 Parameters.default true true true rfl,
   c9_descriptor_populated_then_immutable.2.2 state0 (UsbEvent.classSetup
     { bmRequest := 0x21, bRequest := 0x20, wLength := 7 })⟩

/-- C10: every class setup request that is not a host-to-device request
with `wLength > 0` — that is, every zero-length request and every
device-to-host request — leaves the pending op code and pending length
fields unchanged. -/
theorem c10_pending_fields_frame (s : CdcState) (req : SetupRequest)
    (hclass : req.bmRequest &&& USB_REQ_TYPE_MASK = USB_REQ_TYPE_CLASS)
    (hcase : req.wLength = 0 ∨ req.bmRequest &&& 0x80 ≠ 0) :
    (onCdcSetup s req).1.opCode = s.opCode ∧
    (onCdcSetup s req).1.commandSize = s.commandSize := by
  rcases hcase with hlen | hdir
  · refine ⟨?_, ?_⟩ <;> simp [onCdcSetup, hclass, hlen]
  · by_cases hlen : req.wLength = 0
    · refine ⟨?_, ?_⟩ <;> simp [onCdcSetup, hclass, hlen]
    · refine ⟨?_, ?_⟩ <;> simp [onCdcSetup, hclass, hlen, hdir]

/-- C10 witness: the class device-to-host request
`{bmRequest=0xA1, bRequest=0x21, wLength=7}` leaves the pending fields of
`state0` unchanged. -/
theorem c10_witness :
    (onCdcSetup state0 { bmRequest := 0xA1, bRequest := 0x21, wLength := 7 }).1.opCode =
      state0.opCode ∧
    (onCdcSetup state0 { bmRequest := 0xA1, bRequest := 0x21, wLength := 7 }).1.commandSize =
      state0.commandSize :=
  c10_pending_fields_frame state0 { bmRequest := 0xA1, bRequest := 0x21, wLength := 7 }
    (by decide) (Or.inr (by decide))

end Stm32plusCdc
